import Mathlib

/-!
Verification of the Video-Prompter teleprompter PWA.

The repository ships two monolithic variants of the `VideoTeleprompter`
class (script.js) plus a component architecture (app.js with
`VideoTeleprompterApp`, `VideoComponent`, `ControlsComponent`).  The
definitions below are shallow embeddings of the relevant functions:
pixel and time quantities are rationals, JS strings are Lean strings
(character lists where kernel evaluation is needed), binary blobs are
lists of bytes, and the mutable object state is passed explicitly.
-/

namespace VideoPrompter

/-! ## Autoscroll duration (script.js `startScrolling`, lines 464-498) -/

/-- Splitting a character list at every whitespace character, keeping empty
pieces, as JS `split` does before the `filter` removes the empties. -/
def splitOnWs : List Char → List (List Char)
  | [] => [[]]
  | c :: rest =>
    if c.isWhitespace then [] :: splitOnWs rest
    else
      match splitOnWs rest with
      | [] => [[c]]
      | p :: ps => (c :: p) :: ps

/-- JS `script.split(/\s+/).filter(word => word.length > 0).length`:
the number of maximal whitespace-separated non-empty tokens. -/
def wordCount (script : String) : Nat :=
  ((splitOnWs script.toList).filter (fun w => w.length > 0)).length

/-- JS `readingTimeMinutes = wordCount / wpm / 10;
durationMs = readingTimeMinutes * 60 * 1000`. -/
def scrollDurationMs (w wpm : ℚ) : ℚ :=
  let readingTimeMinutes := w / wpm / 10
  readingTimeMinutes * 60 * 1000

/-! ## Scroll interval callback (script.js lines 486-494) -/

/-- One tick of the `setInterval` callback: the value written to
`scriptInput.scrollTop`, where
`progress = (Date.now() - scrollStartTime) / durationMs` and the write is
`maxScroll` once `progress >= 1`, else `maxScroll * progress`. -/
def scrollTick (scrollStartTime durationMs maxScroll now : ℚ) : ℚ :=
  let progress := (now - scrollStartTime) / durationMs
  if 1 ≤ progress then maxScroll else maxScroll * progress

/-! ## Recorder and MIME probing (script.js `startRecording` lines 330-395,
`saveRecording` lines 408-462) -/

/-- The platform recorder object; `mimeType` is the MIME type the recorder
actually uses (the `MediaRecorder.mimeType` property). -/
structure Recorder where
  mimeType : String
  stopped : Bool
  deriving DecidableEq

/-- The preference order in which script.js `startRecording` probes
`MediaRecorder.isTypeSupported` (lines 339-360). -/
def probeOrder : List String :=
  ["video/webm;codecs=vp9,opus", "video/mp4", "video/webm;codecs=vp8,opus", "video/webm"]

/-- The nested fallback chain of script.js lines 339-360: start from
vp9+opus WebM, fall back to MP4, then vp8+opus WebM, then plain WebM,
finally the empty string standing for the platform default. -/
def pickMimeType (isTypeSupported : String → Bool) : String :=
  if isTypeSupported "video/webm;codecs=vp9,opus" then "video/webm;codecs=vp9,opus"
  else if isTypeSupported "video/mp4" then "video/mp4"
  else if isTypeSupported "video/webm;codecs=vp8,opus" then "video/webm;codecs=vp8,opus"
  else if isTypeSupported "video/webm" then "video/webm"
  else ""

/-- script.js `saveRecording` lines 417-426: the blob is tagged with
`mediaRecorder.mimeType` when that is truthy, else with the default. -/
def saveMimeType (mediaRecorder : Option Recorder) : String :=
  match mediaRecorder with
  | some r => if r.mimeType = "" then "video/webm" else r.mimeType
  | none => "video/webm"

/-! ## Chunk buffering and output assembly (script.js lines 367-372 and
408-436; identical handler in VideoComponent) -/

/-- A binary data chunk: a list of bytes. -/
abbrev Chunk : Type := List Nat

/-- The `ondataavailable` handler: `if (event.data.size > 0)
recordedChunks.push(event.data)`. -/
def receiveData (recordedChunks : List Chunk) (data : Chunk) : List Chunk :=
  if 0 < data.length then recordedChunks ++ [data] else recordedChunks

/-- The chunk sequence accumulated from an (arrival-ordered) sequence of
data events, starting from the empty sequence set by `startRecording`. -/
def recordedChunksAfter (events : List Chunk) : List Chunk :=
  events.foldl receiveData []

/-- `new Blob(recordedChunks, ...)`: byte concatenation of the chunks in
sequence order. -/
def assembleBlob (recordedChunks : List Chunk) : Chunk :=
  recordedChunks.flatten

/-- script.js `saveRecording`: bail out when the chunk list is empty or the
assembled blob has size 0 (no file produced), else produce the blob and
its MIME tag. -/
def saveRecording (recordedChunks : List Chunk) (mediaRecorder : Option Recorder) :
    Option (Chunk × String) :=
  if recordedChunks.length = 0 then none
  else
    let mimeType := saveMimeType mediaRecorder
    let blob := assembleBlob recordedChunks
    if blob.length = 0 then none
    else some (blob, mimeType)

/-! ## Settings persistence (script.js `saveSettings`/`loadSettings`,
first variant lines 566-616, second variant lines 1067-1115) -/

/-- The JSON blob written by the first variant: script text, scroll speed,
text size, camera and rotation; geometry deliberately absent. -/
structure SettingsV1 where
  scriptText : String
  scrollSpeed : String
  textSize : String
  currentCamera : String
  isTextRotated : Bool
  deriving DecidableEq

/-- The first variant's state touched by settings persistence. -/
structure PrefStateV1 where
  scriptInputValue : String
  speedSliderValue : String
  textSizeSliderValue : String
  currentCamera : String
  isTextRotated : Bool
  deriving DecidableEq

def saveSettingsV1 (s : PrefStateV1) : SettingsV1 :=
  { scriptText := s.scriptInputValue
    scrollSpeed := s.speedSliderValue
    textSize := s.textSizeSliderValue
    currentCamera := s.currentCamera
    isTextRotated := s.isTextRotated }

/-- First-variant `loadSettings`: each field is applied only when truthy
(non-empty string, or `true` for the rotation flag); the guarded
assignments touch disjoint fields, so they are rendered field-wise. -/
def loadSettingsV1 (st : SettingsV1) (s : PrefStateV1) : PrefStateV1 :=
  { scriptInputValue := if st.scriptText = "" then s.scriptInputValue else st.scriptText
    speedSliderValue := if st.scrollSpeed = "" then s.speedSliderValue else st.scrollSpeed
    textSizeSliderValue := if st.textSize = "" then s.textSizeSliderValue else st.textSize
    currentCamera := if st.currentCamera = "" then s.currentCamera else st.currentCamera
    isTextRotated := if st.isTextRotated then st.isTextRotated else s.isTextRotated }

/-- The JSON blob written by the second variant: script text, speed, text
size plus the `scriptBoxPosition` geometry (left/top/width/height/transform
style strings); camera and rotation absent. -/
structure SettingsV2 where
  scriptText : String
  scrollSpeed : String
  textSize : String
  posLeft : String
  posTop : String
  posWidth : String
  posHeight : String
  posTransform : String
  deriving DecidableEq

/-- The second variant's state touched by settings persistence. -/
structure PrefStateV2 where
  scriptInputValue : String
  speedSliderValue : String
  textSizeSliderValue : String
  styleLeft : String
  styleTop : String
  styleWidth : String
  styleHeight : String
  styleTransform : String
  deriving DecidableEq

def saveSettingsV2 (s : PrefStateV2) : SettingsV2 :=
  { scriptText := s.scriptInputValue
    scrollSpeed := s.speedSliderValue
    textSize := s.textSizeSliderValue
    posLeft := s.styleLeft
    posTop := s.styleTop
    posWidth := s.styleWidth
    posHeight := s.styleHeight
    posTransform := s.styleTransform }

/-- Second-variant `loadSettings`: the saved blob always carries a
`scriptBoxPosition` object (truthy), and each field is applied only when
truthy (non-empty); the guarded assignments touch disjoint fields, so
they are rendered field-wise. -/
def loadSettingsV2 (st : SettingsV2) (s : PrefStateV2) : PrefStateV2 :=
  { scriptInputValue := if st.scriptText = "" then s.scriptInputValue else st.scriptText
    speedSliderValue := if st.scrollSpeed = "" then s.speedSliderValue else st.scrollSpeed
    textSizeSliderValue := if st.textSize = "" then s.textSizeSliderValue else st.textSize
    styleLeft := if st.posLeft = "" then s.styleLeft else st.posLeft
    styleTop := if st.posTop = "" then s.styleTop else st.posTop
    styleWidth := if st.posWidth = "" then s.styleWidth else st.posWidth
    styleHeight := if st.posHeight = "" then s.styleHeight else st.posHeight
    styleTransform := if st.posTransform = "" then s.styleTransform else st.posTransform }

/-- A concrete first-variant preference state. -/
def prefsA : PrefStateV1 :=
  { scriptInputValue := "hello world"
    speedSliderValue := "120"
    textSizeSliderValue := "24"
    currentCamera := "user"
    isTextRotated := true }

/-- A fresh first-variant state before loading. -/
def freshV1 : PrefStateV1 :=
  { scriptInputValue := ""
    speedSliderValue := "120"
    textSizeSliderValue := "24"
    currentCamera := "user"
    isTextRotated := false }

/-- A concrete second-variant preference state, geometry included. -/
def prefsB : PrefStateV2 :=
  { scriptInputValue := "hi"
    speedSliderValue := "120"
    textSizeSliderValue := "24"
    styleLeft := "10px"
    styleTop := "20px"
    styleWidth := "400px"
    styleHeight := "300px"
    styleTransform := "none" }

/-- A fresh second-variant state before loading. -/
def freshV2 : PrefStateV2 :=
  { scriptInputValue := ""
    speedSliderValue := "120"
    textSizeSliderValue := "24"
    styleLeft := ""
    styleTop := ""
    styleWidth := ""
    styleHeight := ""
    styleTransform := "" }

/-! ## Drag and resize clamping (script.js `drag` lines 146-173,
`resize` lines 200-220) -/

/-- `newLeft = Math.max(0, Math.min(startLeft + deltaX,
window.innerWidth - scriptBox.offsetWidth))`. -/
def dragNewLeft (startLeft clientX startX innerWidth boxWidth : ℚ) : ℚ :=
  max 0 (min (startLeft + (clientX - startX)) (innerWidth - boxWidth))

/-- `newTop = Math.max(0, Math.min(startTop + deltaY,
window.innerHeight - scriptBox.offsetHeight))`. -/
def dragNewTop (startTop clientY startY innerHeight boxHeight : ℚ) : ℚ :=
  max 0 (min (startTop + (clientY - startY)) (innerHeight - boxHeight))

/-- `newWidth = Math.max(300, Math.min(startWidth + deltaX,
window.innerWidth * 0.9))`. -/
def resizeNewWidth (startWidth clientX startX innerWidth : ℚ) : ℚ :=
  max 300 (min (startWidth + (clientX - startX)) (innerWidth * (9 / 10)))

/-- `newHeight = Math.max(200, Math.min(startHeight + deltaY,
window.innerHeight * 0.9))`. -/
def resizeNewHeight (startHeight clientY startY innerHeight : ℚ) : ℚ :=
  max 200 (min (startHeight + (clientY - startY)) (innerHeight * (9 / 10)))

/-! ## The monolithic `VideoTeleprompter` state (script.js first variant):
fields used by `stopRecording` (lines 397-406) and `stopScrolling`
(lines 500-512) -/

structure VT1 where
  mediaRecorder : Option Recorder
  recordedChunks : List Chunk
  isRecording : Bool
  isScrolling : Bool
  scrollInterval : Option ℚ
  scrollTop : ℚ
  deriving DecidableEq

/-- script.js `stopScrolling`: clear the scrolling flag, clear and null the
interval timer, reset the scroll position to 0. -/
def VT1.stopScrolling (s : VT1) : VT1 :=
  { s with isScrolling := false, scrollInterval := none, scrollTop := 0 }

/-- script.js `stopRecording`: guarded by
`if (this.mediaRecorder && this.isRecording)`; stops the recorder, clears
the recording flag, then calls `stopScrolling`. -/
def VT1.stopRecording (s : VT1) : VT1 :=
  if s.mediaRecorder.isSome && s.isRecording then
    VT1.stopScrolling
      { s with
        mediaRecorder := s.mediaRecorder.map (fun r => { r with stopped := true })
        isRecording := false }
  else s

/-! ## Component architecture (app.js `VideoTeleprompterApp`,
`VideoComponent`, `ControlsComponent`) -/

/-- `VideoComponent` state: capture stream presence, recording flag,
buffered chunks and recorder handle. -/
structure VideoState where
  hasStream : Bool
  isRecording : Bool
  recordedChunks : List Chunk
  mediaRecorder : Option Recorder
  deriving DecidableEq

/-- The capability probe list of `VideoComponent.checkRecordingCompatibility`. -/
def typesToCheckVC : List String :=
  ["video/webm;codecs=vp9,opus", "video/webm;codecs=vp8,opus", "video/webm",
   "video/mp4;codecs=h264,aac", "video/mp4"]

/-- `VideoComponent.startRecording`: fails without a stream or with an empty
probe result; otherwise resets the chunk buffer, creates a recorder with the
first supported type, starts it and sets the recording flag. -/
def videoStartRecording (isTypeSupported : String → Bool) (v : VideoState) :
    Bool × VideoState :=
  if !v.hasStream then (false, v)
  else
    match typesToCheckVC.filter isTypeSupported with
    | [] => (false, v)
    | m :: _ =>
      (true,
       { v with
         recordedChunks := []
         mediaRecorder := some { mimeType := m, stopped := false }
         isRecording := true })

/-- `VideoComponent.stopRecording`: guarded by
`if (this.mediaRecorder && this.isRecording)`. -/
def videoStopRecording (v : VideoState) : Bool × VideoState :=
  if v.mediaRecorder.isSome && v.isRecording then
    (true,
     { v with
       mediaRecorder := v.mediaRecorder.map (fun r => { r with stopped := true })
       isRecording := false })
  else (false, v)

/-- The script panel's scroll state seen by the controls. -/
structure ScrollState where
  isScrolling : Bool
  scrollTop : ℚ
  deriving DecidableEq

/-- Modelled from the spec: the `ScriptComponent` source file is not under
src (only its callers are); per the spec's Autoscroll Engine, external
cancellation cancels pending callbacks and resets the scroll offset to 0. -/
def scStopScrolling (_sc : ScrollState) : ScrollState :=
  { isScrolling := false, scrollTop := 0 }

/-- Modelled from the spec: `ScriptComponent.startScrolling` begins a scroll
pass from offset 0. -/
def scStartScrolling (sc : ScrollState) : ScrollState :=
  { sc with isScrolling := true, scrollTop := 0 }

/-- The composite state `ControlsComponent` coordinates. -/
structure AppState where
  video : VideoState
  script : ScrollState
  deriving DecidableEq

/-- `ControlsComponent.toggleRecording`: requires a stream; if recording,
stop the video component and (on success) stop scrolling; otherwise start
the video component and (on success) start scrolling. -/
def controlsToggleRecording (isTypeSupported : String → Bool) (s : AppState) : AppState :=
  if !s.video.hasStream then s
  else if s.video.isRecording then
    let r := videoStopRecording s.video
    if r.1 then { video := r.2, script := scStopScrolling s.script }
    else { s with video := r.2 }
  else
    let r := videoStartRecording isTypeSupported s.video
    if r.1 then { video := r.2, script := scStartScrolling s.script }
    else { s with video := r.2 }

/-- app.js `VideoTeleprompterApp.startRecording` (lines 149-151): it
unconditionally triggers the `toggleRecording` action. -/
def appStartRecording (isTypeSupported : String → Bool) (s : AppState) : AppState :=
  controlsToggleRecording isTypeSupported s

/-- app.js `VideoTeleprompterApp.stopRecording` (lines 153-158): triggers
`toggleRecording` only when the control state reports recording. -/
def appStopRecording (isTypeSupported : String → Bool) (s : AppState) : AppState :=
  if s.video.isRecording then controlsToggleRecording isTypeSupported s else s

/-- A concrete Recording-state app used to exercise the toggle semantics. -/
def recState0 : AppState :=
  { video :=
      { hasStream := true
        isRecording := true
        recordedChunks := [[1, 2]]
        mediaRecorder := some { mimeType := "video/webm", stopped := false } }
    script := { isScrolling := true, scrollTop := 5 } }

/-- A concrete Idle-state app. -/
def idleState0 : AppState :=
  { video :=
      { hasStream := true
        isRecording := false
        recordedChunks := []
        mediaRecorder := none }
    script := { isScrolling := false, scrollTop := 0 } }

/-- A concrete monolithic teleprompter in the Recording state. -/
def vt1Rec0 : VT1 :=
  { mediaRecorder := some { mimeType := "video/webm", stopped := false }
    recordedChunks := [[1, 2], [3]]
    isRecording := true
    isScrolling := true
    scrollInterval := some 200
    scrollTop := 42 }

/-- A concrete monolithic teleprompter in the Idle state. -/
def vt1Idle0 : VT1 :=
  { mediaRecorder := none
    recordedChunks := []
    isRecording := false
    isScrolling := false
    scrollInterval := none
    scrollTop := 0 }

/-! ## Camera switching (script.js `setupCamera` lines 294-320,
`switchCamera` lines 514-523; same stop-first structure in
`VideoComponent.setupCamera`) -/

/-- A capture stream: an identifier plus its track identifiers. -/
structure Stream where
  id : Nat
  tracks : List Nat
  deriving DecidableEq

/-- Observable device events emitted by `setupCamera`. -/
inductive CamEvent where
  | stopTrack (t : Nat)
  | acquire (id : Nat)
  deriving DecidableEq

/-- The event trace of `setupCamera`: first
`stream.getTracks().forEach(track => track.stop())` on the existing stream
(if any), then the `getUserMedia` acquisition resolves. -/
def setupCameraEvents (old : Option Stream) (newId : Nat) : List CamEvent :=
  (match old with
   | some st => st.tracks.map CamEvent.stopTrack
   | none => []) ++ [CamEvent.acquire newId]

/-- Device-side observation: which tracks of the old stream are still live,
and whether the new stream has been handed out. -/
structure CamObs where
  oldLiveTracks : List Nat
  newHeld : Bool
  deriving DecidableEq

def camStep (o : CamObs) : CamEvent → CamObs
  | CamEvent.stopTrack t => { o with oldLiveTracks := o.oldLiveTracks.filter (fun x => x != t) }
  | CamEvent.acquire _ => { o with newHeld := true }

def camRun (o : CamObs) (events : List CamEvent) : CamObs :=
  events.foldl camStep o

/-- Number of live capture streams an observation holds: the old stream
counts while any of its tracks is live, the new one once acquired. -/
def heldStreams (o : CamObs) : Nat :=
  (if o.oldLiveTracks.isEmpty then 0 else 1) + (if o.newHeld then 1 else 0)

/-! # Theorems -/

/-! ## Helper lemmas -/

theorem foldl_receiveData (events : List Chunk) : ∀ acc : List Chunk,
    events.foldl receiveData acc = acc ++ events.filter (fun d => decide (0 < d.length)) := by
  induction events with
  | nil => intro acc; simp
  | cons e es ih =>
    intro acc
    by_cases h : 0 < e.length
    · simp [List.foldl, receiveData, h, ih, List.filter_cons]
    · simp [List.foldl, receiveData, h, ih, List.filter_cons]

theorem recordedChunksAfter_eq (events : List Chunk) :
    recordedChunksAfter events = events.filter (fun d => decide (0 < d.length)) := by
  unfold recordedChunksAfter
  simpa using foldl_receiveData events []

theorem flatten_filter_pos (events : List Chunk) :
    (events.filter (fun d => decide (0 < d.length))).flatten = events.flatten := by
  induction events with
  | nil => rfl
  | cons e es ih =>
    by_cases h : 0 < e.length
    · simp [List.filter_cons, h, ih]
    · have he : e = [] := List.length_eq_zero.mp (by omega)
      simp [List.filter_cons, h, he, ih]

/-! ## C1: autoscroll duration -/

/-- Claim C1, counterexample: the code computes
`4 / 120 / 10 * 60000 = 200` ms for the 4-word script at 120 WPM, not the
2000 ms the claim states. -/
theorem scroll_duration_scenario_counterexample :
    wordCount "one two three four" = 4
    ∧ scrollDurationMs 4 120 = 200
    ∧ ¬ scrollDurationMs 4 120 = 2000 :=
  ⟨by decide, by norm_num [scrollDurationMs], by norm_num [scrollDurationMs]⟩

/-- Claim C1, amended: for every word count w > 0 and speed s > 0 the
duration computed when scrolling starts equals w/s/10*60000 ms and is
strictly positive; for the 4-word script at 120 WPM it is 200 ms. -/
theorem scroll_duration_formula (w wpm : ℚ) (hw : 0 < w) (hs : 0 < wpm) :
    scrollDurationMs w wpm = w / wpm / 10 * 60000
    ∧ 0 < scrollDurationMs w wpm
    ∧ wordCount "one two three four" = 4
    ∧ scrollDurationMs 4 120 = 200 := by
  refine ⟨?_, ?_, by decide, by norm_num [scrollDurationMs]⟩
  · unfold scrollDurationMs
    ring
  · unfold scrollDurationMs
    positivity

/-- Witness for the amended C1 at w = 4, s = 120. -/
theorem scroll_duration_formula_witness :
    (0 : ℚ) < 4 ∧ (0 : ℚ) < 120
    ∧ scrollDurationMs 4 120 = 4 / 120 / 10 * 60000
    ∧ 0 < scrollDurationMs 4 120 := by
  have h := scroll_duration_formula 4 120 (by norm_num) (by norm_num)
  exact ⟨by norm_num, by norm_num, h.1, h.2.1⟩

/-! ## C8: scroll offset invariant -/

/-- Claim C8: while a scroll job is active (positive duration and positive
maximal offset, tick times not before the start), every written offset lies
in [0, maxScroll], writes are monotone in time, and once progress reaches 1
the write is exactly maxScroll. -/
theorem scroll_tick_invariant (scrollStartTime durationMs maxScroll t1 t2 : ℚ)
    (hd : 0 < durationMs) (hm : 0 < maxScroll)
    (h1 : scrollStartTime ≤ t1) (h12 : t1 ≤ t2) :
    0 ≤ scrollTick scrollStartTime durationMs maxScroll t1
    ∧ scrollTick scrollStartTime durationMs maxScroll t1 ≤ maxScroll
    ∧ scrollTick scrollStartTime durationMs maxScroll t1
        ≤ scrollTick scrollStartTime durationMs maxScroll t2
    ∧ (1 ≤ (t2 - scrollStartTime) / durationMs →
        scrollTick scrollStartTime durationMs maxScroll t2 = maxScroll) := by
  have hp1 : 0 ≤ (t1 - scrollStartTime) / durationMs :=
    div_nonneg (by linarith) hd.le
  have hpm : (t1 - scrollStartTime) / durationMs ≤ (t2 - scrollStartTime) / durationMs :=
    (div_le_div_iff_of_pos_right hd).mpr (by linarith)
  refine ⟨?_, ?_, ?_, ?_⟩
  · simp only [scrollTick]
    split_ifs
    · exact hm.le
    · exact mul_nonneg hm.le hp1
  · simp only [scrollTick]
    split_ifs with h
    · exact le_refl _
    · exact mul_le_of_le_one_right hm.le (le_of_lt (not_le.mp h))
  · simp only [scrollTick]
    split_ifs with ha hb hb
    · exact le_refl _
    · exact absurd (le_trans ha hpm) hb
    · exact mul_le_of_le_one_right hm.le (le_of_lt (not_le.mp ha))
    · exact mul_le_mul_of_nonneg_left hpm hm.le
  · intro h
    simp only [scrollTick]
    rw [if_pos h]

/-- Witness for C8 at start = 0, duration = 1000, maxScroll = 50,
t1 = 100, t2 = 2000. -/
theorem scroll_tick_invariant_witness :
    (0 : ℚ) < 1000 ∧ (0 : ℚ) < 50 ∧ (0 : ℚ) ≤ 100 ∧ (100 : ℚ) ≤ 2000
    ∧ 0 ≤ scrollTick 0 1000 50 100
    ∧ scrollTick 0 1000 50 100 ≤ 50
    ∧ scrollTick 0 1000 50 100 ≤ scrollTick 0 1000 50 2000
    ∧ scrollTick 0 1000 50 2000 = 50 := by
  have h := scroll_tick_invariant 0 1000 50 100 2000
    (by norm_num) (by norm_num) (by norm_num) (by norm_num)
  exact ⟨by norm_num, by norm_num, by norm_num, by norm_num,
    h.1, h.2.1, h.2.2.1, h.2.2.2 (by norm_num)⟩

/-! ## C6: geometry clamping -/

/-- Claim C6: for any drag or resize delta, the clamped width lies in
[300, 0.9·innerWidth], the clamped height in [200, 0.9·innerHeight]
(provided those intervals are nonempty, i.e. the viewport is at least
334×223), and the clamped drag position keeps the panel fully inside the
viewport (provided the panel fits in it). -/
theorem geometry_clamp
    (startLeft startTop startWidth startHeight clientX clientY startX startY
      innerWidth innerHeight boxWidth boxHeight : ℚ)
    (hw : 300 ≤ innerWidth * (9 / 10)) (hh : 200 ≤ innerHeight * (9 / 10))
    (hbw : boxWidth ≤ innerWidth) (hbh : boxHeight ≤ innerHeight) :
    300 ≤ resizeNewWidth startWidth clientX startX innerWidth
    ∧ resizeNewWidth startWidth clientX startX innerWidth ≤ innerWidth * (9 / 10)
    ∧ 200 ≤ resizeNewHeight startHeight clientY startY innerHeight
    ∧ resizeNewHeight startHeight clientY startY innerHeight ≤ innerHeight * (9 / 10)
    ∧ 0 ≤ dragNewLeft startLeft clientX startX innerWidth boxWidth
    ∧ dragNewLeft startLeft clientX startX innerWidth boxWidth + boxWidth ≤ innerWidth
    ∧ 0 ≤ dragNewTop startTop clientY startY innerHeight boxHeight
    ∧ dragNewTop startTop clientY startY innerHeight boxHeight + boxHeight ≤ innerHeight := by
  have hL : dragNewLeft startLeft clientX startX innerWidth boxWidth
      ≤ innerWidth - boxWidth :=
    max_le (by linarith) (min_le_right _ _)
  have hT : dragNewTop startTop clientY startY innerHeight boxHeight
      ≤ innerHeight - boxHeight :=
    max_le (by linarith) (min_le_right _ _)
  refine ⟨le_max_left _ _, max_le hw (min_le_right _ _),
    le_max_left _ _, max_le hh (min_le_right _ _),
    le_max_left _ _, by linarith, le_max_left _ _, by linarith⟩

/-- Witness for C6: a 1000×800 viewport, a 400×300 panel, and deltas that
overshoot every bound. -/
theorem geometry_clamp_witness :
    (300 : ℚ) ≤ 1000 * (9 / 10) ∧ (200 : ℚ) ≤ 800 * (9 / 10)
    ∧ (400 : ℚ) ≤ 1000 ∧ (300 : ℚ) ≤ 800
    ∧ 300 ≤ resizeNewWidth 400 5000 0 1000
    ∧ resizeNewWidth 400 5000 0 1000 ≤ 1000 * (9 / 10)
    ∧ 0 ≤ dragNewLeft 10 5000 0 1000 400
    ∧ dragNewLeft 10 5000 0 1000 400 + 400 ≤ 1000 := by
  have h := geometry_clamp 10 20 400 300 5000 (-5000) 0 0 1000 800 400 300
    (by norm_num) (by norm_num) (by norm_num) (by norm_num)
  exact ⟨by norm_num, by norm_num, by norm_num, by norm_num,
    h.1, h.2.1, h.2.2.2.2.1, h.2.2.2.2.2.1⟩

/-! ## C3: MIME probing and output tagging -/

/-- Claim C3: the recorder MIME type chosen by `startRecording` is the
first supported entry of the preference-ordered probe list (empty string,
meaning platform default, if none is supported); in the scenario where only
"video/webm" is supported the recorder is created with "video/webm"; and
when the recorder reports a (truthy) actual MIME type, the assembled blob
is tagged with that actual type. -/
theorem mime_probe_first_supported (isTypeSupported : String → Bool) (r : Recorder)
    (hr : r.mimeType ≠ "") :
    pickMimeType isTypeSupported = (probeOrder.find? isTypeSupported).getD ""
    ∧ pickMimeType (fun t => t == "video/webm") = "video/webm"
    ∧ saveMimeType (some r) = r.mimeType := by
  refine ⟨?_, by decide, ?_⟩
  · unfold pickMimeType probeOrder
    cases h1 : isTypeSupported "video/webm;codecs=vp9,opus" <;>
      cases h2 : isTypeSupported "video/mp4" <;>
        cases h3 : isTypeSupported "video/webm;codecs=vp8,opus" <;>
          cases h4 : isTypeSupported "video/webm" <;>
            simp [List.find?, h1, h2, h3, h4]
  · simp [saveMimeType, hr]

/-- Witness for C3: the probe where only "video/webm" is supported, and a
recorder that actually used "video/webm" after requesting vp9. -/
theorem mime_probe_first_supported_witness :
    ({ mimeType := "video/webm", stopped := false } : Recorder).mimeType ≠ ""
    ∧ pickMimeType (fun t => t == "video/webm")
        = ((probeOrder.find? (fun t => t == "video/webm")).getD "")
    ∧ pickMimeType (fun t => t == "video/webm") = "video/webm"
    ∧ saveMimeType (some { mimeType := "video/webm", stopped := false }) = "video/webm" := by
  have h := mime_probe_first_supported (fun t => t == "video/webm")
    { mimeType := "video/webm", stopped := false } (by decide)
  exact ⟨by decide, h.1, h.2.1, h.2.2⟩

/-! ## C4: saved output equals received chunks -/

/-- Claim C4: whenever `saveRecording` produces a file, its bytes are the
concatenation of the stored chunk sequence in order; that sequence is
exactly the arriving data events of positive size in arrival order; and the
bytes equal the byte-for-byte concatenation of all arriving data. -/
theorem saved_equals_received (events : List Chunk) (mr : Option Recorder)
    (b : Chunk) (m : String)
    (hsave : saveRecording (recordedChunksAfter events) mr = some (b, m)) :
    b = assembleBlob (recordedChunksAfter events)
    ∧ recordedChunksAfter events = events.filter (fun d => decide (0 < d.length))
    ∧ b = events.flatten := by
  have heq := recordedChunksAfter_eq events
  simp only [saveRecording] at hsave
  split_ifs at hsave
  rw [Option.some.injEq, Prod.mk.injEq] at hsave
  refine ⟨hsave.1.symm, heq, ?_⟩
  rw [← hsave.1]
  unfold assembleBlob
  rw [heq, flatten_filter_pos]

/-- Witness for C4: three events, one of size zero, saved with the default
recorder. -/
theorem saved_equals_received_witness :
    saveRecording (recordedChunksAfter [[1, 2], [], [3]]) none
      = some ([1, 2, 3], "video/webm")
    ∧ ([1, 2, 3] : Chunk) = assembleBlob (recordedChunksAfter [[1, 2], [], [3]])
    ∧ recordedChunksAfter [[1, 2], [], [3]]
        = ([[1, 2], [], [3]] : List Chunk).filter (fun d => decide (0 < d.length))
    ∧ ([1, 2, 3] : Chunk) = ([[1, 2], [], [3]] : List Chunk).flatten := by
  have h := saved_equals_received [[1, 2], [], [3]] none [1, 2, 3] "video/webm" (by decide)
  exact ⟨by decide, h.1, h.2.1, h.2.2⟩

/-! ## C10: stored chunks have positive size -/

/-- Claim C10: every chunk the data-available handler stores has size
strictly greater than 0, and the assembled recording is empty only when no
data event ever delivered bytes. -/
theorem chunk_sizes_positive (events : List Chunk) :
    (∀ c ∈ recordedChunksAfter events, 0 < c.length)
    ∧ (assembleBlob (recordedChunksAfter events) = [] → ∀ e ∈ events, e.length = 0) := by
  constructor
  · intro c hc
    rw [recordedChunksAfter_eq] at hc
    simpa using List.of_mem_filter hc
  · intro hflat e he
    unfold assembleBlob at hflat
    rw [recordedChunksAfter_eq, flatten_filter_pos] at hflat
    have : e = [] := List.flatten_eq_nil_iff.mp hflat e he
    simp [this]

/-- Witness for C10: a positive-size chunk survives, a zero-size event is
dropped. -/
theorem chunk_sizes_positive_witness :
    ([7] : Chunk) ∈ recordedChunksAfter [[7], []]
    ∧ 0 < ([7] : Chunk).length
    ∧ recordedChunksAfter [[7], []] = [[7]] := by
  refine ⟨by decide, (chunk_sizes_positive [[7], []]).1 [7] (by decide), by decide⟩

/-! ## C5: settings round-trip -/

theorem load_save_v1 (s t : PrefStateV1)
    (h1 : s.speedSliderValue ≠ "") (h2 : s.textSizeSliderValue ≠ "")
    (h3 : s.currentCamera ≠ "")
    (h4 : s.scriptInputValue = "" → t.scriptInputValue = "")
    (h5 : s.isTextRotated = false → t.isTextRotated = false) :
    loadSettingsV1 (saveSettingsV1 s) t = s := by
  cases s with
  | mk a1 a2 a3 a4 a5 =>
    cases t with
    | mk b1 b2 b3 b4 b5 =>
      simp only [saveSettingsV1, loadSettingsV1, PrefStateV1.mk.injEq] at *
      refine ⟨?_, ?_, ?_, ?_, ?_⟩
      · by_cases h : a1 = "" <;> simp_all
      · simp [h1]
      · simp [h2]
      · simp [h3]
      · cases a5 <;> simp_all

theorem load_save_v2 (s t : PrefStateV2)
    (g1 : s.speedSliderValue ≠ "") (g2 : s.textSizeSliderValue ≠ "")
    (g3 : s.scriptInputValue = "" → t.scriptInputValue = "")
    (g4 : s.styleLeft = "" → t.styleLeft = "")
    (g5 : s.styleTop = "" → t.styleTop = "")
    (g6 : s.styleWidth = "" → t.styleWidth = "")
    (g7 : s.styleHeight = "" → t.styleHeight = "")
    (g8 : s.styleTransform = "" → t.styleTransform = "") :
    loadSettingsV2 (saveSettingsV2 s) t = s := by
  cases s with
  | mk a1 a2 a3 a4 a5 a6 a7 a8 =>
    cases t with
    | mk b1 b2 b3 b4 b5 b6 b7 b8 =>
      simp only [saveSettingsV2, loadSettingsV2, PrefStateV2.mk.injEq] at *
      refine ⟨?_, ?_, ?_, ?_, ?_, ?_, ?_, ?_⟩
      · by_cases h : a1 = "" <;> simp_all
      · simp [g1]
      · simp [g2]
      · by_cases h : a4 = "" <;> simp_all
      · by_cases h : a5 = "" <;> simp_all
      · by_cases h : a6 = "" <;> simp_all
      · by_cases h : a7 = "" <;> simp_all
      · by_cases h : a8 = "" <;> simp_all

/-- Claim C5: in each product variant, saving the preferences then loading
them over any state whose unrestored fields already hold the saved (falsy)
values reproduces the saved preferences field-for-field; the first variant
persists text, speed, size, camera and rotation (and no geometry), the
second also persists the box geometry. -/
theorem settings_round_trip (s1 t1 : PrefStateV1) (s2 t2 : PrefStateV2)
    (h1 : s1.speedSliderValue ≠ "") (h2 : s1.textSizeSliderValue ≠ "")
    (h3 : s1.currentCamera ≠ "")
    (h4 : s1.scriptInputValue = "" → t1.scriptInputValue = "")
    (h5 : s1.isTextRotated = false → t1.isTextRotated = false)
    (g1 : s2.speedSliderValue ≠ "") (g2 : s2.textSizeSliderValue ≠ "")
    (g3 : s2.scriptInputValue = "" → t2.scriptInputValue = "")
    (g4 : s2.styleLeft = "" → t2.styleLeft = "")
    (g5 : s2.styleTop = "" → t2.styleTop = "")
    (g6 : s2.styleWidth = "" → t2.styleWidth = "")
    (g7 : s2.styleHeight = "" → t2.styleHeight = "")
    (g8 : s2.styleTransform = "" → t2.styleTransform = "") :
    loadSettingsV1 (saveSettingsV1 s1) t1 = s1
    ∧ loadSettingsV2 (saveSettingsV2 s2) t2 = s2 :=
  ⟨load_save_v1 s1 t1 h1 h2 h3 h4 h5,
   load_save_v2 s2 t2 g1 g2 g3 g4 g5 g6 g7 g8⟩

/-- Witness for C5: a concrete preference state of each variant, loaded
over a fresh default state. -/
theorem settings_round_trip_witness :
    prefsA.speedSliderValue ≠ "" ∧ prefsB.styleLeft ≠ ""
    ∧ loadSettingsV1 (saveSettingsV1 prefsA) freshV1 = prefsA
    ∧ loadSettingsV2 (saveSettingsV2 prefsB) freshV2 = prefsB := by
  have h := settings_round_trip prefsA freshV1 prefsB freshV2
    (by decide) (by decide) (by decide) (by decide) (by decide)
    (by decide) (by decide) (by decide) (by decide) (by decide)
    (by decide) (by decide) (by decide)
  exact ⟨by decide, by decide, h.1, h.2⟩

/-! ## C2: toggle semantics of the public start/stop -/

/-- Claim C2, counterexample: invoking the public start operation
(`VideoTeleprompterApp.startRecording`, which unconditionally triggers the
toggle) while the state is Recording is not a no-op: it stops the
recording. -/
theorem toggle_start_counterexample :
    recState0.video.isRecording = true
    ∧ (appStartRecording (fun _ => true) recState0).video.isRecording = false
    ∧ appStartRecording (fun _ => true) recState0 ≠ recState0 := by decide

/-- Claim C2, amended: the public control is a toggle, so invoking the
start operation while Recording stops the recording (transition to Idle,
chunk sequence untouched) rather than having no effect; invoking the stop
operation while Idle has no effect (in the component app and in the
monolithic variant alike). -/
theorem toggle_semantics_amended (isTypeSupported : String → Bool) (s : AppState)
    (r : Recorder) (hstream : s.video.hasStream = true)
    (hrec : s.video.isRecording = true) (hm : s.video.mediaRecorder = some r) :
    (appStartRecording isTypeSupported s).video.isRecording = false
    ∧ (appStartRecording isTypeSupported s).video.recordedChunks = s.video.recordedChunks
    ∧ (∀ u : AppState, u.video.isRecording = false → appStopRecording isTypeSupported u = u)
    ∧ (∀ v : VT1, v.isRecording = false → VT1.stopRecording v = v) := by
  have hstop : videoStopRecording s.video
      = (true,
         { s.video with
           mediaRecorder := s.video.mediaRecorder.map (fun r => { r with stopped := true })
           isRecording := false }) := by
    simp [videoStopRecording, hm, hrec]
  refine ⟨?_, ?_, ?_, ?_⟩
  · simp [appStartRecording, controlsToggleRecording, hstream, hrec, hstop]
  · simp [appStartRecording, controlsToggleRecording, hstream, hrec, hstop]
  · intro u hu
    simp [appStopRecording, hu]
  · intro v hv
    simp [VT1.stopRecording, hv]

/-- Witness for the amended C2: the toggle stops `recState0`, and the stop
operation leaves the idle states untouched. -/
theorem toggle_semantics_amended_witness :
    recState0.video.hasStream = true
    ∧ recState0.video.isRecording = true
    ∧ recState0.video.mediaRecorder = some { mimeType := "video/webm", stopped := false }
    ∧ (appStartRecording (fun _ => true) recState0).video.isRecording = false
    ∧ idleState0.video.isRecording = false
    ∧ appStopRecording (fun _ => true) idleState0 = idleState0
    ∧ vt1Idle0.isRecording = false
    ∧ VT1.stopRecording vt1Idle0 = vt1Idle0 := by
  have h := toggle_semantics_amended (fun _ => true) recState0
    { mimeType := "video/webm", stopped := false } rfl rfl rfl
  exact ⟨rfl, rfl, rfl, h.1, rfl, h.2.2.1 idleState0 rfl, rfl, h.2.2.2 vt1Idle0 rfl⟩

/-! ## C7: stop transition cancels the autoscroll -/

/-- Claim C7: from a Recording state (recording flag set, recorder present)
`stopRecording` always performs the transition: the recorder is stopped,
the recording and scrolling flags are cleared, the interval timer is
cleared and nulled, and the scroll offset is reset to 0, all in the same
transition. -/
theorem stop_recording_stops_scrolling (s : VT1) (r0 : Recorder)
    (hrec : s.isRecording = true) (hm : s.mediaRecorder = some r0) :
    (VT1.stopRecording s).isRecording = false
    ∧ (VT1.stopRecording s).isScrolling = false
    ∧ (VT1.stopRecording s).scrollInterval = none
    ∧ (VT1.stopRecording s).scrollTop = 0
    ∧ (VT1.stopRecording s).mediaRecorder = some { r0 with stopped := true } := by
  simp [VT1.stopRecording, VT1.stopScrolling, hrec, hm]

/-- Witness for C7 on the concrete recording teleprompter `vt1Rec0`. -/
theorem stop_recording_stops_scrolling_witness :
    vt1Rec0.isRecording = true
    ∧ vt1Rec0.mediaRecorder = some { mimeType := "video/webm", stopped := false }
    ∧ (VT1.stopRecording vt1Rec0).isRecording = false
    ∧ (VT1.stopRecording vt1Rec0).scrollInterval = none
    ∧ (VT1.stopRecording vt1Rec0).scrollTop = 0 := by
  have h := stop_recording_stops_scrolling vt1Rec0
    { mimeType := "video/webm", stopped := false } rfl rfl
  exact ⟨rfl, rfl, h.1, h.2.2.1, h.2.2.2.1⟩

/-! ## C9: camera switching releases the old stream first -/

theorem camRun_stops_newHeld (ts : List Nat) (o : CamObs) :
    (camRun o (ts.map CamEvent.stopTrack)).newHeld = o.newHeld := by
  induction ts generalizing o with
  | nil => rfl
  | cons t ts ih =>
    have hstep : camRun o ((t :: ts).map CamEvent.stopTrack)
        = camRun (camStep o (CamEvent.stopTrack t)) (ts.map CamEvent.stopTrack) := rfl
    rw [hstep, ih]
    rfl

theorem camRun_stops_empty (ts : List Nat) : ∀ (l : List Nat) (b : Bool),
    (∀ x ∈ l, x ∈ ts) →
    (camRun ⟨l, b⟩ (ts.map CamEvent.stopTrack)).oldLiveTracks = [] := by
  induction ts with
  | nil =>
    intro l b hsub
    have hl : l = [] := by
      rw [List.eq_nil_iff_forall_not_mem]
      intro a ha
      exact absurd (hsub a ha) (List.not_mem_nil a)
    simp [camRun, hl]
  | cons t ts ih =>
    intro l b hsub
    have hstep : camRun ⟨l, b⟩ ((t :: ts).map CamEvent.stopTrack)
        = camRun ⟨l.filter (fun x => x != t), b⟩ (ts.map CamEvent.stopTrack) := rfl
    rw [hstep]
    apply ih
    intro x hx
    have hxl := List.mem_filter.mp hx
    have hxne : x ≠ t := by simpa using hxl.2
    have hmem := hsub x hxl.1
    simp only [List.mem_cons] at hmem
    tauto

theorem camRun_setupCamera (st : Stream) (newId : Nat) :
    camRun ⟨st.tracks, false⟩ (setupCameraEvents (some st) newId)
      = ⟨[], true⟩ := by
  have hO := camRun_stops_empty st.tracks st.tracks false (fun x hx => hx)
  have hseq : setupCameraEvents (some st) newId
      = st.tracks.map CamEvent.stopTrack ++ [CamEvent.acquire newId] := rfl
  rw [hseq, camRun, List.foldl_append]
  have hstep : List.foldl camStep
        (List.foldl camStep ⟨st.tracks, false⟩ (st.tracks.map CamEvent.stopTrack))
        [CamEvent.acquire newId]
      = camStep (camRun ⟨st.tracks, false⟩ (st.tracks.map CamEvent.stopTrack))
          (CamEvent.acquire newId) := rfl
  rw [hstep]
  cases h : camRun ⟨st.tracks, false⟩ (st.tracks.map CamEvent.stopTrack) with
  | mk ol nh =>
    rw [h] at hO
    simp only at hO
    simp [camStep, hO]

theorem heldStreams_take (st : Stream) (newId k : Nat) :
    heldStreams (camRun ⟨st.tracks, false⟩ ((setupCameraEvents (some st) newId).take k)) ≤ 1 := by
  have hseq : setupCameraEvents (some st) newId
      = st.tracks.map CamEvent.stopTrack ++ [CamEvent.acquire newId] := rfl
  by_cases hk : k ≤ st.tracks.length
  · have hlen : k ≤ (st.tracks.map CamEvent.stopTrack).length := by
      simpa [List.length_map] using hk
    rw [hseq, List.take_append_of_le_length hlen, ← List.map_take]
    have hN := camRun_stops_newHeld (st.tracks.take k) ⟨st.tracks, false⟩
    cases h : camRun ⟨st.tracks, false⟩ ((st.tracks.take k).map CamEvent.stopTrack) with
    | mk ol nh =>
      rw [h] at hN
      simp only at hN
      simp only [heldStreams, hN]
      split <;> norm_num
  · have hlen : (setupCameraEvents (some st) newId).length ≤ k := by
      rw [hseq]
      simp only [List.length_append, List.length_map, List.length_singleton]
      omega
    rw [List.take_of_length_le hlen, camRun_setupCamera]
    simp [heldStreams]

theorem stops_before_acquire (st : Stream) (newId i j t m : Nat)
    (hi : (setupCameraEvents (some st) newId)[i]? = some (CamEvent.stopTrack t))
    (hj : (setupCameraEvents (some st) newId)[j]? = some (CamEvent.acquire m)) :
    i < j := by
  have hseq : setupCameraEvents (some st) newId
      = st.tracks.map CamEvent.stopTrack ++ [CamEvent.acquire newId] := rfl
  rw [hseq] at hi hj
  have hlenA : (st.tracks.map CamEvent.stopTrack).length = st.tracks.length :=
    List.length_map _ _
  have hiA : i < st.tracks.length := by
    by_contra hge
    push_neg at hge
    rw [List.getElem?_append_right (by omega)] at hi
    rcases hd : i - (st.tracks.map CamEvent.stopTrack).length with _ | d
    · rw [hd] at hi
      simp at hi
    · rw [hd] at hi
      simp at hi
  have hjA : st.tracks.length ≤ j := by
    by_contra hlt
    push_neg at hlt
    rw [List.getElem?_append, if_pos (by omega)] at hj
    rw [List.getElem?_map] at hj
    cases h : st.tracks[j]? with
    | none =>
      rw [h] at hj
      simp at hj
    | some x =>
      rw [h] at hj
      simp at hj
  omega

/-- Claim C9: in the `setupCamera` event trace that a camera switch runs
while a stream is active, every stop of an old track precedes the new
acquisition; at every prefix of the trace at most one live capture stream
is held; and afterwards no old track is live and exactly the new stream is
held. -/
theorem camera_switch_releases_first (st : Stream) (newId k i j t m : Nat)
    (hi : (setupCameraEvents (some st) newId)[i]? = some (CamEvent.stopTrack t))
    (hj : (setupCameraEvents (some st) newId)[j]? = some (CamEvent.acquire m)) :
    i < j
    ∧ heldStreams (camRun ⟨st.tracks, false⟩ ((setupCameraEvents (some st) newId).take k)) ≤ 1
    ∧ camRun ⟨st.tracks, false⟩ (setupCameraEvents (some st) newId) = ⟨[], true⟩ :=
  ⟨stops_before_acquire st newId i j t m hi hj,
   heldStreams_take st newId k,
   camRun_setupCamera st newId⟩

/-- Witness for C9: a stream with tracks 1 and 2 switched to stream 7. -/
theorem camera_switch_releases_first_witness :
    (setupCameraEvents (some ⟨0, [1, 2]⟩) 7)[0]? = some (CamEvent.stopTrack 1)
    ∧ (setupCameraEvents (some ⟨0, [1, 2]⟩) 7)[2]? = some (CamEvent.acquire 7)
    ∧ (0 : Nat) < 2
    ∧ heldStreams (camRun ⟨[1, 2], false⟩ ((setupCameraEvents (some ⟨0, [1, 2]⟩) 7).take 1)) ≤ 1
    ∧ camRun ⟨[1, 2], false⟩ (setupCameraEvents (some ⟨0, [1, 2]⟩) 7) = ⟨[], true⟩ := by
  have h := camera_switch_releases_first ⟨0, [1, 2]⟩ 7 1 0 2 1 7 (by decide) (by decide)
  exact ⟨by decide, by decide, h.1, h.2.1, h.2.2⟩

end VideoPrompter
